import Mathlib

/-!
Verification of the `link_manager` utility: a shallow embedding of the
directory walker in `src/main.rs` together with the CLI policy resolution in
`src/cli.rs`, and proofs of the behavioural claims about them.

Interactive prompts are modelled as streams of pending user answers, the
filesystem as an inductive tree of directory entries with injectable I/O
failures, and side effects as an event trace threaded through the walk.
-/

namespace LinkManager

/-- Paths are modelled as lists of components. `join` appends a component,
`file_name` is the final component, `set_file_name` replaces it
(mirroring the `std::path::Path` operations used by the program). -/
abbrev Path := List String

def Path.join (p : Path) (n : String) : Path := p ++ [n]

def Path.file_name (p : Path) : Option String := p.getLast?

def Path.set_file_name (p : Path) (n : String) : Path := p.dropLast ++ [n]

/-- Result of `Confirm::interact_opt()`: `Ok(Some(true))`, `Ok(Some(false))`,
`Ok(None)` (the user dismissed the prompt), or `Err(Error::IO(_))`. -/
inductive ConfirmAns where
  | yes
  | no
  | esc
  | ioErr
deriving DecidableEq, Repr

/-- Result of `Input::interact_text()`: `Ok(string)` or `Err(Error::IO(_))`. -/
inductive TextAns where
  | text (s : String)
  | ioErr
deriving DecidableEq, Repr

/-- Tags for the distinct `eprintln!` sites of `main.rs`. -/
inductive ErrTag where
  | failedOpenReadDir
  | failedFileType
  | linkError
  | promptError
  | recurseError
  | createError
  | readBaseError
  | singleFileError
deriving DecidableEq, Repr

/-- Observable events of a run: calls into the two per-entry routines,
rename prompts (with their pre-filled default), link/directory creation
attempts, successful directory listings, and error-stream reports. -/
inductive Ev where
  | linkFileCall (original link : Path)
  | createDirCall (location : Path) (name : String)
  | renamePrompt (dflt : String)
  | linkCreated (original link : Path)
  | linkFailed (original link : Path)
  | dirCreated (p : Path)
  | dirFailed (p : Path)
  | readDir (p : Path)
  | errLog (t : ErrTag)
deriving DecidableEq, Repr

/-- The environment of a run: the pending answers to confirmation prompts and
text prompts, oracles deciding whether each link / directory creation syscall
succeeds, and the event trace accumulated so far. An exhausted answer stream
behaves as an I/O error; an exhausted oracle as a failing syscall. -/
structure S where
  confirms : List ConfirmAns
  texts : List TextAns
  linkOks : List Bool
  dirOks : List Bool
  events : List Ev
deriving DecidableEq, Repr

def popConfirm : S → ConfirmAns × S
  | ⟨[], t, l, d, e⟩ => (.ioErr, ⟨[], t, l, d, e⟩)
  | ⟨c :: cs, t, l, d, e⟩ => (c, ⟨cs, t, l, d, e⟩)

def popText : S → TextAns × S
  | ⟨c, [], l, d, e⟩ => (.ioErr, ⟨c, [], l, d, e⟩)
  | ⟨c, t :: ts, l, d, e⟩ => (t, ⟨c, ts, l, d, e⟩)

def popLinkOk : S → Bool × S
  | ⟨c, t, [], d, e⟩ => (false, ⟨c, t, [], d, e⟩)
  | ⟨c, t, l :: ls, d, e⟩ => (l, ⟨c, t, ls, d, e⟩)

def popDirOk : S → Bool × S
  | ⟨c, t, l, [], e⟩ => (false, ⟨c, t, l, [], e⟩)
  | ⟨c, t, l, d :: ds, e⟩ => (d, ⟨c, t, l, ds, e⟩)

def S.emit (s : S) (ev : Ev) : S := { s with events := s.events ++ [ev] }

/-- A computation that may abort the whole process with a panic
(Rust `assert!` / `expect`). -/
inductive POr (α : Type) where
  | panic
  | ok (a : α)
deriving DecidableEq, Repr

/-- Rust `io::Result` with the error payload abstracted away (the program
only ever logs it). -/
inductive IoRes (α : Type) where
  | ok (a : α)
  | err
deriving DecidableEq, Repr

namespace MainRs

/-- The `Cli` struct of `main.rs`: the `base` and `target` positionals are
passed to the walker separately; the flags are `symbolic` and `recurse`. -/
structure Cli where
  symbolic : Bool
  recurse : Bool
deriving DecidableEq, Repr

/-- `ShouldExit` from `main.rs`. -/
inductive ShouldExit where
  | no
  | yes
deriving DecidableEq, Repr

/-- `ShouldExit::should_exit`. -/
def ShouldExit.should_exit : ShouldExit → Bool
  | .no => false
  | .yes => true

/-- `CreateDirContinuation` from `main.rs` (`Continue` is spelled `cont`). -/
inductive CreateDirContinuation where
  | exit
  | cont
  | maybeRecurse (p : Path)
deriving DecidableEq, Repr

mutual
/-- One entry yielded while iterating a source directory, with the I/O
failures the program distinguishes: the iterator itself yielding `Err`,
a failing metadata lookup, a regular file, a directory (readable or not
when listed for recursion, with its children), and any other resolved file
type (socket, FIFO, device node, ...), whose `read_dir` always fails. -/
inductive Entry where
  | readErr
  | metaErr (name : String)
  | file (name : String)
  | other (name : String)
  | dir (name : String) (readable : Bool) (children : Entries)
deriving DecidableEq, Repr

inductive Entries where
  | nil
  | cons (e : Entry) (rest : Entries)
deriving DecidableEq, Repr
end

def Entries.append : Entries → Entries → Entries
  | .nil, l => l
  | .cons e rest, l => .cons e (rest.append l)

/-- `link_file` from `main.rs`: asserts the link path carries a file name
(else panics), asks for confirmation (abort dismisses the whole walk,
refusal skips), prompts for the link name pre-filled with the original one,
replaces the final component, and attempts the link syscall. Prompt I/O
errors and a failing syscall surface as `io::Result` errors. -/
def link_file (original link : Path) (_cli : Cli) (s : S) :
    POr (S × IoRes ShouldExit) :=
  let s := s.emit (.linkFileCall original link)
  match link.file_name with
  | none => .panic
  | some link_file_name =>
    match popConfirm s with
    | (.ioErr, s) => .ok (s, .err)
    | (.esc, s) => .ok (s, .ok .yes)
    | (.no, s) => .ok (s, .ok .no)
    | (.yes, s) =>
      let s := s.emit (.renamePrompt link_file_name)
      match popText s with
      | (.ioErr, s) => .ok (s, .err)
      | (.text nm, s) =>
        let link2 := link.set_file_name nm
        match popLinkOk s with
        | (true, s) => .ok (s.emit (.linkCreated original link2), .ok .no)
        | (false, s) => .ok (s.emit (.linkFailed original link2), .err)

/-- `create_dir` from `main.rs`: confirmation (abort requests exit of the
walk, refusal continues), a rename prompt pre-filled with the source
directory name, then the `fs::create_dir` syscall on `location.join(name)`. -/
def create_dir (location : Path) (name : String) (s : S) :
    S × IoRes CreateDirContinuation :=
  let s := s.emit (.createDirCall location name)
  match popConfirm s with
  | (.ioErr, s) => (s, .err)
  | (.esc, s) => (s, .ok .exit)
  | (.no, s) => (s, .ok .cont)
  | (.yes, s) =>
    let s := s.emit (.renamePrompt name)
    match popText s with
    | (.ioErr, s) => (s, .err)
    | (.text nm, s) =>
      let new_dir_path := location.join nm
      match popDirOk s with
      | (true, s) => (s.emit (.dirCreated new_dir_path), .ok (.maybeRecurse new_dir_path))
      | (false, s) => (s.emit (.dirFailed new_dir_path), .err)

/-- Loop control of the entry loop in `recurse_into_dir`: `continue` to the
next sibling, or `return ShouldExit::Yes`. -/
inductive Ctl where
  | next
  | exit
deriving DecidableEq, Repr

mutual
/-- One iteration of the entry loop of `recurse_into_dir` in `main.rs`:
per-entry errors are logged and skipped; a regular file goes to `link_file`
(whose abort exits the walk and whose error is logged and skipped); every
other entry falls through to `create_dir` and, when a directory was created
and `--recurse` is set, to the recursion prompt and the recursive descent. -/
def stepEntry (e : Entry) (src tgt : Path) (cli : Cli) (s : S) : POr (S × Ctl) :=
  match e with
  | .readErr => .ok (s.emit (.errLog .failedOpenReadDir), .next)
  | .metaErr _ => .ok (s.emit (.errLog .failedFileType), .next)
  | .file n =>
    match link_file (src.join n) (tgt.join n) cli s with
    | .panic => .panic
    | .ok (s1, .ok .no) => .ok (s1, .next)
    | .ok (s1, .ok .yes) => .ok (s1, .exit)
    | .ok (s1, .err) => .ok (s1.emit (.errLog .linkError), .next)
  | .other n =>
    match create_dir tgt n s with
    | (s1, .err) => .ok (s1.emit (.errLog .createError), .next)
    | (s1, .ok .exit) => .ok (s1, .exit)
    | (s1, .ok .cont) => .ok (s1, .next)
    | (s1, .ok (.maybeRecurse _)) =>
      if cli.recurse then
        match popConfirm s1 with
        | (.ioErr, s2) => .ok (s2.emit (.errLog .promptError), .next)
        | (.esc, s2) => .ok (s2, .exit)
        | (.no, s2) => .ok (s2, .next)
        | (.yes, s2) => .ok (s2.emit (.errLog .recurseError), .next)
      else .ok (s1, .next)
  | .dir n readable children =>
    match create_dir tgt n s with
    | (s1, .err) => .ok (s1.emit (.errLog .createError), .next)
    | (s1, .ok .exit) => .ok (s1, .exit)
    | (s1, .ok .cont) => .ok (s1, .next)
    | (s1, .ok (.maybeRecurse new_dir_path)) =>
      if cli.recurse then
        match popConfirm s1 with
        | (.ioErr, s2) => .ok (s2.emit (.errLog .promptError), .next)
        | (.esc, s2) => .ok (s2, .exit)
        | (.no, s2) => .ok (s2, .next)
        | (.yes, s2) =>
          if readable then
            let s3 := s2.emit (.readDir (src.join n))
            match recurse_into_dir children (src.join n) new_dir_path cli s3 with
            | .panic => .panic
            | .ok (s4, .yes) => .ok (s4, .exit)
            | .ok (s4, .no) => .ok (s4, .next)
          else .ok (s2.emit (.errLog .recurseError), .next)
      else .ok (s1, .next)

/-- `recurse_into_dir` from `main.rs`: fold the loop body over the listed
entries, stopping at the first `return ShouldExit::Yes`. -/
def recurse_into_dir (l : Entries) (src tgt : Path) (cli : Cli) (s : S) :
    POr (S × ShouldExit) :=
  match l with
  | .nil => .ok (s, .no)
  | .cons e rest =>
    match stepEntry e src tgt cli s with
    | .panic => .panic
    | .ok (s1, .exit) => .ok (s1, .yes)
    | .ok (s1, .next) => recurse_into_dir rest src tgt cli s1
end

/-- Rust `ExitCode::SUCCESS` / `ExitCode::FAILURE`. -/
inductive ExitCode where
  | success
  | failure
deriving DecidableEq, Repr

/-- What `cli.base` resolves to in `main`: a regular file, or anything else,
in which case `read_dir` either yields a listing or fails. -/
inductive BaseKind where
  | file
  | dirListing (l : Option Entries)
deriving DecidableEq, Repr

/-- `main` from `main.rs`: a file base gets a single `link_file` call against
`target.join(file_name)` (an `Err` is logged and exits with failure, any `Ok`
exits with success); otherwise the base is listed (failure to list exits with
failure) and the walker runs, its outcome discarded in favour of success. -/
def mainFn (basePath tgt : Path) (kind : BaseKind) (cli : Cli) (s : S) :
    POr (S × ExitCode) :=
  match kind with
  | .file =>
    match basePath.file_name with
    | none => .panic
    | some nm =>
      match link_file basePath (tgt.join nm) cli s with
      | .panic => .panic
      | .ok (s1, .err) => .ok (s1.emit (.errLog .singleFileError), .failure)
      | .ok (s1, .ok _) => .ok (s1, .success)
  | .dirListing none => .ok (s.emit (.errLog .readBaseError), .failure)
  | .dirListing (some l) =>
    let s := s.emit (.readDir basePath)
    match recurse_into_dir l basePath tgt cli s with
    | .panic => .panic
    | .ok (s1, _) => .ok (s1, .success)

end MainRs

namespace CliRs

/-- The `Action` value enum of `cli.rs`. -/
inductive Action where
  | always
  | ask
  | never
deriving DecidableEq, Repr

/-- The `Cli` struct of `cli.rs` (flags only; the positionals play no role in
policy resolution). Raw argument fields carry an `_arg` suffix because the
accessor methods of the same name are defined below. -/
structure Cli where
  symbolic_arg : Bool
  never_prompt : Bool
  always_create_links : Bool
  create_dirs_arg : Option Action
  recurse_arg : Option Action
  ask_to_rename_dirs_arg : Bool
  ask_to_rename_links_arg : Bool
deriving DecidableEq, Repr

/-- `Cli::recurse` from `cli.rs`. -/
def Cli.recurse (c : Cli) : Action :=
  c.recurse_arg.getD (if c.never_prompt then .always else .ask)

/-- `Cli::create_dirs` from `cli.rs`. -/
def Cli.create_dirs (c : Cli) : Action :=
  c.create_dirs_arg.getD (if c.never_prompt then .always else .ask)

/-- `Cli::ask_to_rename_dirs` from `cli.rs`. -/
def Cli.ask_to_rename_dirs (c : Cli) : Bool :=
  !c.never_prompt || c.ask_to_rename_dirs_arg

/-- `Cli::create_links` from `cli.rs`. -/
def Cli.create_links (c : Cli) : Action :=
  if c.always_create_links || c.never_prompt then .always else .ask

/-- `Cli::ask_to_rename_links` from `cli.rs`. -/
def Cli.ask_to_rename_links (c : Cli) : Bool :=
  !c.never_prompt || c.ask_to_rename_links_arg

/-- `Cli::symbolic` from `cli.rs`. -/
def Cli.symbolic (c : Cli) : Bool := c.symbolic_arg

end CliRs

namespace SpecModel

/-!
The policy-driven walker described by the specification consumes the
resolvers of `cli.rs`, but the `main` that does so is not among the sources;
this section models that missing consumer from the specification's words
(sections 3 and 4.1 to 4.4), reusing the entry tree and event trace of the
embedding above and the real `cli.rs` policy resolution.
-/

open MainRs (Entry Entries)

/-- Modelled from the spec: `WalkPolicy` (spec section 3) — the immutable
per-run configuration, three-way modes for link creation, directory creation
and recursion, and boolean rename/symlink toggles. -/
structure WalkPolicy where
  linkCreation : CliRs.Action
  dirCreation : CliRs.Action
  recursion : CliRs.Action
  askRenameLinks : Bool
  askRenameDirs : Bool
  useSymlink : Bool
deriving DecidableEq, Repr

/-- Modelled from the spec: the policy resolver (spec section 4.1), realised
by the accessor methods of `cli.rs`. -/
def toPolicy (c : CliRs.Cli) : WalkPolicy :=
  ⟨c.create_links, c.create_dirs, c.recurse,
   c.ask_to_rename_links, c.ask_to_rename_dirs, c.symbolic⟩

/-- Modelled from the spec: environment of a policy-driven run. Confirmations
yield `some true`, `some false` or `none` (abort); text prompts yield
`some string` or `none` (abort); the syscall oracles and the event trace are
as in the embedding of `main.rs`. An exhausted stream behaves as an abort,
an exhausted oracle as a failing syscall. -/
structure SSpec where
  confirms : List (Option Bool)
  texts : List (Option String)
  linkOks : List Bool
  dirOks : List Bool
  events : List Ev
deriving DecidableEq, Repr

def popConfirmS : SSpec → Option Bool × SSpec
  | ⟨[], t, l, d, e⟩ => (none, ⟨[], t, l, d, e⟩)
  | ⟨c :: cs, t, l, d, e⟩ => (c, ⟨cs, t, l, d, e⟩)

def popTextS : SSpec → Option String × SSpec
  | ⟨c, [], l, d, e⟩ => (none, ⟨c, [], l, d, e⟩)
  | ⟨c, t :: ts, l, d, e⟩ => (t, ⟨c, ts, l, d, e⟩)

def popLinkOkS : SSpec → Bool × SSpec
  | ⟨c, t, [], d, e⟩ => (false, ⟨c, t, [], d, e⟩)
  | ⟨c, t, l :: ls, d, e⟩ => (l, ⟨c, t, ls, d, e⟩)

def popDirOkS : SSpec → Bool × SSpec
  | ⟨c, t, l, [], e⟩ => (false, ⟨c, t, l, [], e⟩)
  | ⟨c, t, l, d :: ds, e⟩ => (d, ⟨c, t, l, ds, e⟩)

def SSpec.emit (s : SSpec) (ev : Ev) : SSpec := { s with events := s.events ++ [ev] }

/-- Modelled from the spec: `WalkOutcome` (spec section 3), `Continue` or
`Abort`. -/
inductive WalkOutcome where
  | cont
  | abort
deriving DecidableEq, Repr

/-- Modelled from the spec: the tail of `linkFile` once the decision to
create is affirmative and a name is fixed — the name replaces the final
component of the proposed link path and the link syscall is attempted
(spec section 4.2). -/
def linkFileCreate (original proposedLink : Path) (nm : String) (s : SSpec) :
    SSpec × IoRes WalkOutcome :=
  let link2 := proposedLink.set_file_name nm
  match popLinkOkS s with
  | (true, s) => (s.emit (.linkCreated original link2), .ok .cont)
  | (false, s) => (s.emit (.linkFailed original link2), .err)

/-- Modelled from the spec: the rename phase of `linkFile` — when
`askRenameLinks` is set, a text prompt pre-filled with the original name,
whose abort is mapped identically to the confirmation abort; otherwise the
original name unmodified (spec section 4.2). -/
def linkFileProceed (original proposedLink : Path) (origName : String)
    (pol : WalkPolicy) (s : SSpec) : SSpec × IoRes WalkOutcome :=
  if pol.askRenameLinks then
    let s := s.emit (.renamePrompt origName)
    match popTextS s with
    | (none, s) => (s, .ok .abort)
    | (some nm, s) => linkFileCreate original proposedLink nm s
  else
    linkFileCreate original proposedLink origName s

/-- Modelled from the spec: `linkFile` (spec section 4.2) — the missing
policy-driven single-file linking routine. The proposed link path must carry
a file name (else a programming-error panic); whether to create is decided
by `policy.linkCreation`: `Always` proceeds directly, `Ask` issues the
three-way confirmation (abort short-circuits, negative skips, affirmative
proceeds). The spec's resolver never produces `Never` for link creation;
it is modelled as skipping. -/
def linkFile (original proposedLink : Path) (pol : WalkPolicy) (s : SSpec) :
    POr (SSpec × IoRes WalkOutcome) :=
  let s := s.emit (.linkFileCall original proposedLink)
  match proposedLink.file_name with
  | none => .panic
  | some origName =>
    match pol.linkCreation with
    | .never => .ok (s, .ok .cont)
    | .always => .ok (linkFileProceed original proposedLink origName pol s)
    | .ask =>
      match popConfirmS s with
      | (none, s) => .ok (s, .ok .abort)
      | (some false, s) => .ok (s, .ok .cont)
      | (some true, s) => .ok (linkFileProceed original proposedLink origName pol s)

/-- Modelled from the spec: `DirAction` (spec sections 3 and 4.3). -/
inductive DirAction where
  | abort
  | skip
  | created (p : Path)
deriving DecidableEq, Repr

/-- Modelled from the spec: the creation phase of `createDir` once a name is
fixed — exactly one directory is created at `parent/<name>` (spec
section 4.3). -/
def createDirMake (parent : Path) (nm : String) (s : SSpec) :
    SSpec × IoRes DirAction :=
  let p := parent.join nm
  match popDirOkS s with
  | (true, s) => (s.emit (.dirCreated p), .ok (.created p))
  | (false, s) => (s.emit (.dirFailed p), .err)

/-- Modelled from the spec: the rename phase of `createDir`, gated by
`askRenameDirs`, pre-filled with the source directory name, abort mapped to
the confirmation abort (spec section 4.3). -/
def createDirProceed (parent : Path) (name : String) (pol : WalkPolicy)
    (s : SSpec) : SSpec × IoRes DirAction :=
  if pol.askRenameDirs then
    let s := s.emit (.renamePrompt name)
    match popTextS s with
    | (none, s) => (s, .ok .abort)
    | (some nm, s) => createDirMake parent nm s
  else
    createDirMake parent name s

/-- Modelled from the spec: `createDir` (spec section 4.3) — the missing
policy-driven single-directory creation routine, same three-way confirmation
shape as `linkFile`, gated by `policy.dirCreation`. -/
def createDir (parent : Path) (name : String) (pol : WalkPolicy) (s : SSpec) :
    SSpec × IoRes DirAction :=
  let s := s.emit (.createDirCall parent name)
  match pol.dirCreation with
  | .never => (s, .ok .skip)
  | .always => createDirProceed parent name pol s
  | .ask =>
    match popConfirmS s with
    | (none, s) => (s, .ok .abort)
    | (some false, s) => (s, .ok .skip)
    | (some true, s) => createDirProceed parent name pol s

/-- Loop control for one entry of the spec walker. -/
inductive StepCtl where
  | next
  | abort
deriving DecidableEq, Repr

mutual
/-- Modelled from the spec: one entry of the policy-driven walk (spec
section 4.4) — resolution failures are logged and skipped; a regular file
goes to `linkFile`; every other entry goes to `createDir` and, on a created
directory, the three-way recursion decision: `Never` skips descent,
`Always` descends unconditionally, `Ask` confirms (abort propagates,
negative skips, affirmative descends into the source subdirectory with the
newly created directory as the new target). -/
def walkEntry (e : Entry) (src tgt : Path) (pol : WalkPolicy) (s : SSpec) :
    POr (SSpec × StepCtl) :=
  match e with
  | .readErr => .ok (s.emit (.errLog .failedOpenReadDir), .next)
  | .metaErr _ => .ok (s.emit (.errLog .failedFileType), .next)
  | .file n =>
    match linkFile (src.join n) (tgt.join n) pol s with
    | .panic => .panic
    | .ok (s1, .ok .cont) => .ok (s1, .next)
    | .ok (s1, .ok .abort) => .ok (s1, .abort)
    | .ok (s1, .err) => .ok (s1.emit (.errLog .linkError), .next)
  | .other n =>
    match createDir tgt n pol s with
    | (s1, .err) => .ok (s1.emit (.errLog .createError), .next)
    | (s1, .ok .abort) => .ok (s1, .abort)
    | (s1, .ok .skip) => .ok (s1, .next)
    | (s1, .ok (.created _)) =>
      match pol.recursion with
      | .never => .ok (s1, .next)
      | .always => .ok (s1.emit (.errLog .recurseError), .next)
      | .ask =>
        match popConfirmS s1 with
        | (none, s2) => .ok (s2, .abort)
        | (some false, s2) => .ok (s2, .next)
        | (some true, s2) => .ok (s2.emit (.errLog .recurseError), .next)
  | .dir n readable children =>
    match createDir tgt n pol s with
    | (s1, .err) => .ok (s1.emit (.errLog .createError), .next)
    | (s1, .ok .abort) => .ok (s1, .abort)
    | (s1, .ok .skip) => .ok (s1, .next)
    | (s1, .ok (.created p)) =>
      match pol.recursion with
      | .never => .ok (s1, .next)
      | .always =>
        if readable then
          let s2 := s1.emit (.readDir (src.join n))
          match walk children (src.join n) p pol s2 with
          | .panic => .panic
          | .ok (s3, .abort) => .ok (s3, .abort)
          | .ok (s3, .cont) => .ok (s3, .next)
        else .ok (s1.emit (.errLog .recurseError), .next)
      | .ask =>
        match popConfirmS s1 with
        | (none, s2) => .ok (s2, .abort)
        | (some false, s2) => .ok (s2, .next)
        | (some true, s2) =>
          if readable then
            let s3 := s2.emit (.readDir (src.join n))
            match walk children (src.join n) p pol s3 with
            | .panic => .panic
            | .ok (s4, .abort) => .ok (s4, .abort)
            | .ok (s4, .cont) => .ok (s4, .next)
          else .ok (s2.emit (.errLog .recurseError), .next)

/-- Modelled from the spec: the policy-driven depth-first pre-order walk
(spec section 4.4), aborting at the first `Abort` outcome. -/
def walk (l : Entries) (src tgt : Path) (pol : WalkPolicy) (s : SSpec) :
    POr (SSpec × WalkOutcome) :=
  match l with
  | .nil => .ok (s, .cont)
  | .cons e rest =>
    match walkEntry e src tgt pol s with
    | .panic => .panic
    | .ok (s1, .abort) => .ok (s1, .abort)
    | .ok (s1, .next) => walk rest src tgt pol s1
end

end SpecModel

/-! Helper lemmas shared by the claim theorems. -/

theorem Path.file_name_join (p : Path) (n : String) : (p.join n).file_name = some n := by
  simp [Path.join, Path.file_name]

theorem Path.set_file_name_join (p : Path) (n m : String) :
    (p.join n).set_file_name m = p.join m := by
  simp [Path.join, Path.set_file_name]

namespace MainRs

theorem recurse_append :
    ∀ (l1 l2 : Entries) (src tgt : Path) (cli : Cli) (s : S),
      recurse_into_dir (l1.append l2) src tgt cli s =
        match recurse_into_dir l1 src tgt cli s with
        | .panic => .panic
        | .ok (s1, .yes) => .ok (s1, .yes)
        | .ok (s1, .no) => recurse_into_dir l2 src tgt cli s1
  | .nil, l2, src, tgt, cli, s => by simp [Entries.append, recurse_into_dir]
  | .cons e rest, l2, src, tgt, cli, s => by
    simp only [Entries.append, recurse_into_dir]
    cases h : stepEntry e src tgt cli s with
    | panic => simp
    | ok a =>
      obtain ⟨s1, c⟩ := a
      cases c with
      | exit => simp
      | next => simpa using recurse_append rest l2 src tgt cli s1

theorem link_file_no_panic (original link : Path) (cli : Cli) (s : S) (nm : String)
    (h : link.file_name = some nm) : link_file original link cli s ≠ POr.panic := by
  simp only [link_file, h]
  split <;> try simp
  all_goals split <;> try simp
  all_goals split <;> simp

mutual
theorem stepEntry_no_panic :
    ∀ (e : Entry) (src tgt : Path) (cli : Cli) (s : S),
      stepEntry e src tgt cli s ≠ POr.panic
  | .readErr, src, tgt, cli, s => by simp [stepEntry]
  | .metaErr n, src, tgt, cli, s => by simp [stepEntry]
  | .file n, src, tgt, cli, s => by
    simp only [stepEntry]
    cases h : link_file (src.join n) (tgt.join n) cli s with
    | panic => exact absurd h (link_file_no_panic _ _ cli s n (Path.file_name_join tgt n))
    | ok a =>
      obtain ⟨s1, r⟩ := a
      cases r with
      | err => simp
      | ok se => cases se <;> simp
  | .other n, src, tgt, cli, s => by
    simp only [stepEntry]
    split <;> try simp
    all_goals split <;> try simp
    all_goals split <;> simp
  | .dir n readable children, src, tgt, cli, s => by
    simp only [stepEntry]
    rcases hcd : create_dir tgt n s with ⟨s1, r⟩
    rcases r with a | _
    · rcases a with _ | _ | p
      · simp
      · simp
      · simp only []
        by_cases hr : cli.recurse
        · simp only [hr, if_true]
          rcases hpc : popConfirm s1 with ⟨c, s2⟩
          cases c
          · by_cases hrd : readable
            · simp only [hrd, if_true]
              cases hw : recurse_into_dir children (src.join n) p cli
                  (s2.emit (.readDir (src.join n))) with
              | panic => exact absurd hw (recurse_no_panic children _ _ cli _)
              | ok a =>
                obtain ⟨s4, o⟩ := a
                cases o <;> simp
            · simp [hrd]
          · simp
          · simp
          · simp
        · simp [hr]
    · simp

theorem recurse_no_panic :
    ∀ (l : Entries) (src tgt : Path) (cli : Cli) (s : S),
      recurse_into_dir l src tgt cli s ≠ POr.panic
  | .nil, src, tgt, cli, s => by simp [recurse_into_dir]
  | .cons e rest, src, tgt, cli, s => by
    simp only [recurse_into_dir]
    cases h : stepEntry e src tgt cli s with
    | panic => exact absurd h (stepEntry_no_panic e src tgt cli s)
    | ok a =>
      obtain ⟨s1, c⟩ := a
      cases c with
      | exit => simp
      | next => simpa using recurse_no_panic rest src tgt cli s1
end

/-! Claim theorems about the walker of `main.rs`. -/

/-- C1: once an abort outcome is produced at any recursion depth (a
confirmation returning the abort result in `link_file`, `create_dir`, or the
recursion prompt makes the loop body request exit), `recurse_into_dir`
returns the exit outcome at that depth with the state exactly as it was at
the abort point — no further sibling entries are visited and no further
link-creation or directory-creation side effects happen — and a nested
walk returning the exit outcome makes the enclosing loop body request exit,
so the same holds at every ancestor depth. -/
theorem c1_abort_terminates_walk
    (pre post children : Entries) (e : Entry) (n : String)
    (src tgt newp : Path) (cli : Cli) (s s1 s2 sx sd0 sd1 sy : S) :
    (recurse_into_dir pre src tgt cli s = .ok (s1, .no) →
      stepEntry e src tgt cli s1 = .ok (s2, .exit) →
      recurse_into_dir (pre.append (.cons e post)) src tgt cli s = .ok (s2, .yes))
    ∧ (create_dir tgt n sx = (sd0, .ok (.maybeRecurse newp)) →
      cli.recurse = true →
      popConfirm sd0 = (.yes, sd1) →
      recurse_into_dir children (src.join n) newp cli
          (sd1.emit (.readDir (src.join n))) = .ok (sy, .yes) →
      stepEntry (.dir n true children) src tgt cli sx = .ok (sy, .exit)) := by
  constructor
  · intro h1 h2
    rw [recurse_append, h1]
    simp [recurse_into_dir, h2]
  · intro hc hr hp hw
    simp [stepEntry, hc, hr, hp, hw]

/-- Witness for C1: on a three-file listing where the second confirmation is
dismissed, the walk stops right there; and a dismissal inside a recreated
subdirectory makes the parent loop body request exit. -/
theorem c1_witness :
    recurse_into_dir
        (Entries.append (.cons (.file "a") .nil)
          (.cons (.file "b") (.cons (.file "c") .nil)))
        ["s"] ["t"] ⟨false, true⟩ ⟨[.no, .esc], [], [], [], []⟩ =
      .ok (⟨[], [], [], [],
        [.linkFileCall ["s", "a"] ["t", "a"],
         .linkFileCall ["s", "b"] ["t", "b"]]⟩, .yes)
    ∧ stepEntry (.dir "d" true (.cons (.file "z") .nil)) ["s"] ["t"] ⟨false, true⟩
        ⟨[.yes, .yes, .esc], [.text "d"], [], [true], []⟩ =
      .ok (⟨[], [], [], [],
        [.createDirCall ["t"] "d", .renamePrompt "d", .dirCreated ["t", "d"],
         .readDir ["s", "d"],
         .linkFileCall ["s", "d", "z"] ["t", "d", "z"]]⟩, .exit) := by
  constructor
  · exact (c1_abort_terminates_walk
      (.cons (.file "a") .nil) (.cons (.file "c") .nil) .nil (.file "b") "x"
      ["s"] ["t"] [] ⟨false, true⟩
      ⟨[.no, .esc], [], [], [], []⟩
      ⟨[.esc], [], [], [], [.linkFileCall ["s", "a"] ["t", "a"]]⟩
      ⟨[], [], [], [],
        [.linkFileCall ["s", "a"] ["t", "a"], .linkFileCall ["s", "b"] ["t", "b"]]⟩
      ⟨[], [], [], [], []⟩ ⟨[], [], [], [], []⟩ ⟨[], [], [], [], []⟩ ⟨[], [], [], [], []⟩).1 (by decide) (by decide)
  · exact (c1_abort_terminates_walk .nil .nil (.cons (.file "z") .nil) .readErr "d"
      ["s"] ["t"] ["t", "d"] ⟨false, true⟩
      ⟨[], [], [], [], []⟩ ⟨[], [], [], [], []⟩ ⟨[], [], [], [], []⟩
      ⟨[.yes, .yes, .esc], [.text "d"], [], [true], []⟩
      ⟨[.yes, .esc], [], [], [],
        [.createDirCall ["t"] "d", .renamePrompt "d", .dirCreated ["t", "d"]]⟩
      ⟨[.esc], [], [], [],
        [.createDirCall ["t"] "d", .renamePrompt "d", .dirCreated ["t", "d"]]⟩
      ⟨[], [], [], [],
        [.createDirCall ["t"] "d", .renamePrompt "d", .dirCreated ["t", "d"],
         .readDir ["s", "d"],
         .linkFileCall ["s", "d", "z"] ["t", "d", "z"]]⟩).2
      (by decide) rfl (by decide) (by decide)

/-- C9: `link_file` panics exactly when the proposed link path carries no
final component, and the walker is immune: every link path it builds joins
an entry name onto the target, so no call of the walk can reach the
assertion failure — `recurse_into_dir` never panics. -/
theorem c9_assert_unreachable_in_walk
    (original link : Path) (cli : Cli) (s : S) (nm : String) :
    (link.file_name = none → link_file original link cli s = .panic)
    ∧ (link.file_name = some nm → link_file original link cli s ≠ .panic)
    ∧ (∀ (l : Entries) (src tgt : Path) (cli2 : Cli) (s2 : S),
        recurse_into_dir l src tgt cli2 s2 ≠ .panic) := by
  refine ⟨fun h => by simp [link_file, h], fun h => link_file_no_panic _ _ _ _ nm h,
    fun l src tgt cli2 s2 => recurse_no_panic l src tgt cli2 s2⟩

/-- Witness for C9: a link path with no component panics, one with a
component does not, and a concrete walk does not panic. -/
theorem c9_witness :
    link_file ["s", "f"] [] ⟨false, false⟩ ⟨[], [], [], [], []⟩ = .panic
    ∧ link_file ["s", "f"] ["t", "f"] ⟨false, false⟩ ⟨[], [], [], [], []⟩ ≠ .panic
    ∧ recurse_into_dir (.cons (.file "f") .nil) ["s"] ["t"] ⟨false, false⟩
        ⟨[], [], [], [], []⟩ ≠ .panic := by
  refine ⟨(c9_assert_unreachable_in_walk ["s", "f"] [] ⟨false, false⟩
      ⟨[], [], [], [], []⟩ "f").1 rfl,
    (c9_assert_unreachable_in_walk ["s", "f"] ["t", "f"] ⟨false, false⟩
      ⟨[], [], [], [], []⟩ "f").2.1 rfl,
    (c9_assert_unreachable_in_walk ["s", "f"] ["t", "f"] ⟨false, false⟩
      ⟨[], [], [], [], []⟩ "f").2.2 _ _ _ _ _⟩

/-- C5: `main` exits successfully whenever the single-file `link_file` call
returns any `Ok` (including the mid-walk abort result) and whenever the
directory walk runs, whatever its outcome; it exits with a failure code
exactly in the two remaining cases — the root source listing fails, or the
single-file `link_file` call returns an error. -/
theorem c5_exit_codes
    (basePath tgt : Path) (cli : Cli) (s s1 : S) (nm : String) (r : ShouldExit)
    (l : Entries) (w : ShouldExit) :
    (basePath.file_name = some nm →
      link_file basePath (tgt.join nm) cli s = .ok (s1, .ok r) →
      mainFn basePath tgt .file cli s = .ok (s1, .success))
    ∧ (basePath.file_name = some nm →
      link_file basePath (tgt.join nm) cli s = .ok (s1, .err) →
      mainFn basePath tgt .file cli s =
        .ok (s1.emit (.errLog .singleFileError), .failure))
    ∧ (mainFn basePath tgt (.dirListing none) cli s =
        .ok (s.emit (.errLog .readBaseError), .failure))
    ∧ (recurse_into_dir l basePath tgt cli (s.emit (.readDir basePath)) =
        .ok (s1, w) →
      mainFn basePath tgt (.dirListing (some l)) cli s = .ok (s1, .success)) := by
  refine ⟨fun h1 h2 => by simp [mainFn, h1, h2],
    fun h1 h2 => by simp [mainFn, h1, h2],
    by simp [mainFn],
    fun h => by simp [mainFn, h]⟩

/-- Witness for C5: an aborted single-file link still exits successfully, a
failed one exits with failure, and an aborted directory walk exits
successfully. -/
theorem c5_witness :
    mainFn ["s", "f"] ["t"] .file ⟨false, false⟩ ⟨[.esc], [], [], [], []⟩ =
      .ok (⟨[], [], [], [], [.linkFileCall ["s", "f"] ["t", "f"]]⟩, .success)
    ∧ mainFn ["s", "f"] ["t"] .file ⟨false, false⟩ ⟨[], [], [], [], []⟩ =
      .ok (⟨[], [], [], [],
        [.linkFileCall ["s", "f"] ["t", "f"], .errLog .singleFileError]⟩, .failure)
    ∧ mainFn ["s"] ["t"] (.dirListing (some (.cons (.file "a") (.cons (.file "b") .nil))))
        ⟨false, false⟩ ⟨[.esc], [], [], [], []⟩ =
      .ok (⟨[], [], [], [],
        [.readDir ["s"], .linkFileCall ["s", "a"] ["t", "a"]]⟩, .success) := by
  refine ⟨(c5_exit_codes ["s", "f"] ["t"] ⟨false, false⟩ ⟨[.esc], [], [], [], []⟩
      ⟨[], [], [], [], [.linkFileCall ["s", "f"] ["t", "f"]]⟩ "f" .yes .nil .no).1
      rfl (by decide),
    (c5_exit_codes ["s", "f"] ["t"] ⟨false, false⟩ ⟨[], [], [], [], []⟩
      ⟨[], [], [], [], [.linkFileCall ["s", "f"] ["t", "f"]]⟩ "f" .yes .nil .no).2.1
      rfl (by decide),
    (c5_exit_codes ["s"] ["t"] ⟨false, false⟩ ⟨[.esc], [], [], [], []⟩
      ⟨[], [], [], [], [.readDir ["s"], .linkFileCall ["s", "a"] ["t", "a"]]⟩ "s" .yes
      (.cons (.file "a") (.cons (.file "b") .nil)) .yes).2.2.2 (by decide)⟩

/-- C7: every per-entry I/O error — an unreadable directory entry, a failed
metadata lookup, a failed link creation, a failed directory creation, and a
failed listing of a subdirectory chosen for recursion — is reported to the
error stream and the walk continues with the next sibling entry. -/
theorem c7_per_entry_errors_nonfatal
    (n nm : String) (rb : Bool) (ch rest : Entries) (src tgt : Path) (cli : Cli)
    (sym : Bool) (cs : List ConfirmAns) (ts : List TextAns) (ls ds : List Bool)
    (evs : List Ev) (s : S) :
    (recurse_into_dir (.cons .readErr rest) src tgt cli s =
      recurse_into_dir rest src tgt cli (s.emit (.errLog .failedOpenReadDir)))
    ∧ (recurse_into_dir (.cons (.metaErr n) rest) src tgt cli s =
      recurse_into_dir rest src tgt cli (s.emit (.errLog .failedFileType)))
    ∧ (recurse_into_dir (.cons (.file n) rest) src tgt cli
        ⟨.yes :: cs, .text nm :: ts, false :: ls, ds, evs⟩ =
      recurse_into_dir rest src tgt cli
        ⟨cs, ts, ls, ds, evs ++
          [.linkFileCall (src.join n) (tgt.join n), .renamePrompt n,
           .linkFailed (src.join n) (tgt.join nm), .errLog .linkError]⟩)
    ∧ (recurse_into_dir (.cons (.dir n rb ch) rest) src tgt cli
        ⟨.yes :: cs, .text nm :: ts, ls, false :: ds, evs⟩ =
      recurse_into_dir rest src tgt cli
        ⟨cs, ts, ls, ds, evs ++
          [.createDirCall tgt n, .renamePrompt n, .dirFailed (tgt.join nm),
           .errLog .createError]⟩)
    ∧ (recurse_into_dir (.cons (.dir n false ch) rest) src tgt ⟨sym, true⟩
        ⟨.yes :: .yes :: cs, .text nm :: ts, ls, true :: ds, evs⟩ =
      recurse_into_dir rest src tgt ⟨sym, true⟩
        ⟨cs, ts, ls, ds, evs ++
          [.createDirCall tgt n, .renamePrompt n, .dirCreated (tgt.join nm),
           .errLog .recurseError]⟩) := by
  refine ⟨by simp [recurse_into_dir, stepEntry], by simp [recurse_into_dir, stepEntry],
    ?_, ?_, ?_⟩
  · simp [recurse_into_dir, stepEntry, link_file, popConfirm, popText, popLinkOk,
      S.emit, Path.file_name_join, Path.set_file_name_join]
  · simp [recurse_into_dir, stepEntry, create_dir, popConfirm, popText, popDirOk,
      S.emit]
  · simp [recurse_into_dir, stepEntry, create_dir, popConfirm, popText, popDirOk,
      S.emit]

theorem create_dir_events (tgt : Path) (n : String) (s : S) :
    ∃ tail, ((create_dir tgt n s).1).events = s.events ++ .createDirCall tgt n :: tail := by
  rcases s with ⟨cs, ts, ls, ds, evs⟩
  rcases cs with _ | ⟨c, cs⟩
  · exact ⟨[], by simp [create_dir, popConfirm, S.emit]⟩
  · cases c
    case yes =>
      rcases ts with _ | ⟨t, ts⟩
      · exact ⟨[.renamePrompt n], by simp [create_dir, popConfirm, popText, S.emit]⟩
      · cases t
        case text nm =>
          rcases ds with _ | ⟨d, ds⟩
          · exact ⟨[.renamePrompt n, .dirFailed (tgt.join nm)],
              by simp [create_dir, popConfirm, popText, popDirOk, S.emit]⟩
          · cases d
            · exact ⟨[.renamePrompt n, .dirFailed (tgt.join nm)],
                by simp [create_dir, popConfirm, popText, popDirOk, S.emit]⟩
            · exact ⟨[.renamePrompt n, .dirCreated (tgt.join nm)],
                by simp [create_dir, popConfirm, popText, popDirOk, S.emit]⟩
        case ioErr =>
          exact ⟨[.renamePrompt n], by simp [create_dir, popConfirm, popText, S.emit]⟩
    all_goals exact ⟨[], by simp [create_dir, popConfirm, S.emit]⟩

theorem popConfirm_events (s : S) : ((popConfirm s).2).events = s.events := by
  rcases s with ⟨cs, ts, ls, ds, evs⟩
  rcases cs with _ | ⟨c, cs⟩ <;> simp [popConfirm]

/-- C10: a directory entry whose resolved file type is neither a regular
file nor a directory is handled exactly as a directory whose listing cannot
be read — the only type test is `is_file` — and in particular it is offered
for recreation via `create_dir`; no entry is surfaced as a third kind or
skipped on type grounds. -/
theorem c10_nonfile_falls_to_dir_branch
    (n : String) (children : Entries) (src tgt : Path) (cli : Cli) (s : S) :
    stepEntry (.other n) src tgt cli s = stepEntry (.dir n false children) src tgt cli s
    ∧ ∃ s1 c tail, stepEntry (.other n) src tgt cli s = .ok (s1, c) ∧
        s1.events = s.events ++ .createDirCall tgt n :: tail := by
  constructor
  · simp only [stepEntry]
    rcases hcd : create_dir tgt n s with ⟨s1, r⟩
    rcases r with a | _
    · rcases a with _ | _ | p <;> simp
    · simp
  · obtain ⟨tail, htail⟩ := create_dir_events tgt n s
    simp only [stepEntry]
    rcases hcd : create_dir tgt n s with ⟨s1, r⟩
    rw [hcd] at htail
    replace htail : s1.events = s.events ++ .createDirCall tgt n :: tail := htail
    rcases r with a | _
    · rcases a with _ | _ | p
      · exact ⟨s1, .exit, tail, by simp, htail⟩
      · exact ⟨s1, .next, tail, by simp, htail⟩
      · by_cases hr : cli.recurse
        · rcases hpc : popConfirm s1 with ⟨c, s2⟩
          have hev2 : s2.events = s1.events := by
            have := popConfirm_events s1
            rw [hpc] at this
            exact this
          cases c
          · exact ⟨s2.emit (.errLog .recurseError), .next, tail ++ [.errLog .recurseError],
              by simp [hr, hpc], by simp [S.emit, hev2, htail]⟩
          · exact ⟨s2, .next, tail, by simp [hr, hpc], by rw [hev2, htail]⟩
          · exact ⟨s2, .exit, tail, by simp [hr, hpc], by rw [hev2, htail]⟩
          · exact ⟨s2.emit (.errLog .promptError), .next, tail ++ [.errLog .promptError],
              by simp [hr, hpc], by simp [S.emit, hev2, htail]⟩
        · exact ⟨s1, .next, tail, by simp [hr], htail⟩
    · exact ⟨s1.emit (.errLog .createError), .next, tail ++ [.errLog .createError],
        by simp, by simp [S.emit, htail]⟩

/-- Holds of the events that record a call to `link_file`. -/
def Ev.isLinkFileCall : Ev → Bool
  | .linkFileCall _ _ => true
  | _ => false

/-- Holds of the events that record a successful directory listing. -/
def Ev.isReadDir : Ev → Bool
  | .readDir _ => true
  | _ => false

/-- Every run of `link_file` on a link path with a file name returns without
panicking, and its new events are the `link_file` call record followed by a
tail holding no further call records and no directory reads. -/
theorem link_file_events (original link : Path) (cli : Cli) (s : S) (nm : String)
    (h : link.file_name = some nm) :
    ∃ s1 r tail, link_file original link cli s = .ok (s1, r)
      ∧ s1.events = s.events ++ .linkFileCall original link :: tail
      ∧ tail.filter Ev.isLinkFileCall = [] ∧ tail.filter Ev.isReadDir = [] := by
  rcases s with ⟨cs, ts, ls, ds, evs⟩
  rcases cs with _ | ⟨c, cs⟩
  · exact ⟨⟨[], ts, ls, ds, evs ++ [.linkFileCall original link]⟩, .err, [],
      by simp [link_file, h, popConfirm, S.emit], rfl, rfl, rfl⟩
  · cases c
    case yes =>
      rcases ts with _ | ⟨t, ts⟩
      · exact ⟨⟨cs, [], ls, ds,
          evs ++ [.linkFileCall original link, .renamePrompt nm]⟩, .err,
          [.renamePrompt nm],
          by simp [link_file, h, popConfirm, popText, S.emit], by simp, rfl, rfl⟩
      · cases t
        case text nm2 =>
          rcases ls with _ | ⟨b, ls⟩
          · exact ⟨⟨cs, ts, [], ds,
              evs ++ [.linkFileCall original link, .renamePrompt nm,
                .linkFailed original (link.set_file_name nm2)]⟩, .err,
              [.renamePrompt nm, .linkFailed original (link.set_file_name nm2)],
              by simp [link_file, h, popConfirm, popText, popLinkOk, S.emit],
              by simp, rfl, rfl⟩
          · cases b
            · exact ⟨⟨cs, ts, ls, ds,
                evs ++ [.linkFileCall original link, .renamePrompt nm,
                  .linkFailed original (link.set_file_name nm2)]⟩, .err,
                [.renamePrompt nm, .linkFailed original (link.set_file_name nm2)],
                by simp [link_file, h, popConfirm, popText, popLinkOk, S.emit],
                by simp, rfl, rfl⟩
            · exact ⟨⟨cs, ts, ls, ds,
                evs ++ [.linkFileCall original link, .renamePrompt nm,
                  .linkCreated original (link.set_file_name nm2)]⟩, .ok .no,
                [.renamePrompt nm, .linkCreated original (link.set_file_name nm2)],
                by simp [link_file, h, popConfirm, popText, popLinkOk, S.emit],
                by simp, rfl, rfl⟩
        case ioErr =>
          exact ⟨⟨cs, ts, ls, ds,
            evs ++ [.linkFileCall original link, .renamePrompt nm]⟩, .err,
            [.renamePrompt nm],
            by simp [link_file, h, popConfirm, popText, S.emit], by simp, rfl, rfl⟩
    case no =>
      exact ⟨⟨cs, ts, ls, ds, evs ++ [.linkFileCall original link]⟩, .ok .no, [],
        by simp [link_file, h, popConfirm, S.emit], rfl, rfl, rfl⟩
    case esc =>
      exact ⟨⟨cs, ts, ls, ds, evs ++ [.linkFileCall original link]⟩, .ok .yes, [],
        by simp [link_file, h, popConfirm, S.emit], rfl, rfl, rfl⟩
    case ioErr =>
      exact ⟨⟨cs, ts, ls, ds, evs ++ [.linkFileCall original link]⟩, .err, [],
        by simp [link_file, h, popConfirm, S.emit], rfl, rfl, rfl⟩

/-- C8: when the source argument is a single regular file, `main` performs
exactly one call to `link_file`, with proposed link path
`target/<original file name>`, and never reads any directory listing —
whatever the user answers and whether or not the link syscall succeeds. -/
theorem c8_single_file_single_link
    (p tgt : Path) (nm : String) (cli : Cli)
    (cs : List ConfirmAns) (ts : List TextAns) (ls ds : List Bool) :
    ∃ s1 c, mainFn (p.join nm) tgt .file cli ⟨cs, ts, ls, ds, []⟩ = .ok (s1, c)
      ∧ s1.events.filter Ev.isLinkFileCall = [.linkFileCall (p.join nm) (tgt.join nm)]
      ∧ s1.events.filter Ev.isReadDir = [] := by
  obtain ⟨s1, r, tail, hlf, hev, hf1, hf2⟩ :=
    link_file_events (p.join nm) (tgt.join nm) cli ⟨cs, ts, ls, ds, []⟩ nm
      (Path.file_name_join tgt nm)
  simp only [mainFn, Path.file_name_join]
  rw [hlf]
  cases r with
  | err =>
    refine ⟨s1.emit (.errLog .singleFileError), .failure, by simp, ?_, ?_⟩
    · simp [S.emit, hev, List.filter_append, hf1, hf2, Ev.isLinkFileCall, Ev.isReadDir]
    · simp [S.emit, hev, List.filter_append, hf1, hf2, Ev.isLinkFileCall, Ev.isReadDir]
  | ok a =>
    refine ⟨s1, .success, by simp, ?_, ?_⟩
    · simp [hev, List.filter_append, hf1, hf2, Ev.isLinkFileCall, Ev.isReadDir]
    · simp [hev, List.filter_append, hf1, hf2, Ev.isLinkFileCall, Ev.isReadDir]

/-- C6 counterexample: aborting a text prompt (an I/O-error result of the
rename input) is not mapped to the whole-walk abort — with the rename input
failing on the first file the walk still visits the second sibling and
returns the continue outcome, while dismissing a yes/no confirmation on the
first file terminates the walk at once with the exit outcome. -/
theorem c6_counterexample :
    (recurse_into_dir (.cons (.file "a") (.cons (.file "b") .nil)) ["s"] ["t"]
        ⟨false, false⟩ ⟨[.yes, .no], [.ioErr], [], [], []⟩ =
      .ok (⟨[], [], [], [],
        [.linkFileCall ["s", "a"] ["t", "a"], .renamePrompt "a",
         .errLog .linkError, .linkFileCall ["s", "b"] ["t", "b"]]⟩, .no))
    ∧ (recurse_into_dir (.cons (.file "a") (.cons (.file "b") .nil)) ["s"] ["t"]
        ⟨false, false⟩ ⟨[.esc], [], [], [], []⟩ =
      .ok (⟨[], [], [], [], [.linkFileCall ["s", "a"] ["t", "a"]]⟩, .yes))
    ∧ ShouldExit.no ≠ ShouldExit.yes := by
  refine ⟨by decide, by decide, by decide⟩

/-- C6 amended: every text prompt yields a string or an I/O-error signal;
in `link_file` and `create_dir` that signal becomes the function's error
result, which the walker reports and treats as a non-fatal per-entry error,
continuing with the next sibling — unlike the confirmation abort, which
terminates the whole walk. -/
theorem c6_text_prompt_error_is_per_entry
    (original p : Path) (n : String) (rb : Bool) (ch rest : Entries)
    (src tgt : Path) (cli : Cli) (cs : List ConfirmAns) (ts : List TextAns)
    (ls ds : List Bool) (evs : List Ev) :
    (link_file original (p.join n) cli ⟨.yes :: cs, .ioErr :: ts, ls, ds, evs⟩ =
      .ok (⟨cs, ts, ls, ds,
        evs ++ [.linkFileCall original (p.join n), .renamePrompt n]⟩, .err))
    ∧ (recurse_into_dir (.cons (.file n) rest) src tgt cli
        ⟨.yes :: cs, .ioErr :: ts, ls, ds, evs⟩ =
      recurse_into_dir rest src tgt cli
        ⟨cs, ts, ls, ds, evs ++
          [.linkFileCall (src.join n) (tgt.join n), .renamePrompt n,
           .errLog .linkError]⟩)
    ∧ (create_dir tgt n ⟨.yes :: cs, .ioErr :: ts, ls, ds, evs⟩ =
      (⟨cs, ts, ls, ds, evs ++ [.createDirCall tgt n, .renamePrompt n]⟩, .err))
    ∧ (recurse_into_dir (.cons (.dir n rb ch) rest) src tgt cli
        ⟨.yes :: cs, .ioErr :: ts, ls, ds, evs⟩ =
      recurse_into_dir rest src tgt cli
        ⟨cs, ts, ls, ds, evs ++
          [.createDirCall tgt n, .renamePrompt n, .errLog .createError]⟩)
    ∧ (link_file original (p.join n) cli ⟨.esc :: cs, ts, ls, ds, evs⟩ =
      .ok (⟨cs, ts, ls, ds, evs ++ [.linkFileCall original (p.join n)]⟩, .ok .yes)) := by
  refine ⟨?_, ?_, ?_, ?_, ?_⟩
  · simp [link_file, popConfirm, popText, S.emit, Path.file_name_join]
  · simp [recurse_into_dir, stepEntry, link_file, popConfirm, popText, S.emit,
      Path.file_name_join]
  · simp [create_dir, popConfirm, popText, S.emit]
  · simp [recurse_into_dir, stepEntry, create_dir, popConfirm, popText, S.emit]
  · simp [link_file, popConfirm, S.emit, Path.file_name_join]

end MainRs

namespace SpecModel

open MainRs (Entries)

/-- C2: the `cli.rs` resolver yields `Always` for link creation exactly when
`--always-create-links` or `--never-prompt` is set (and never yields
`Never`), and the policy-driven `linkFile` proceeds directly to creation
without touching the confirmation stream when the policy is `Always`, while
under `Ask` it consumes exactly the three-way confirmation, whose abort,
refusal and assent behave as specified. -/
theorem c2_link_policy_gates_confirmation
    (c : CliRs.Cli) (original p : Path) (n : String)
    (dc rc : CliRs.Action) (rd sym : Bool)
    (cf : List (Option Bool)) (tx : List (Option String)) (ls ds : List Bool)
    (evs : List Ev) :
    (c.create_links = .always ↔ (c.always_create_links = true ∨ c.never_prompt = true))
    ∧ c.create_links ≠ .never
    ∧ (linkFile original (p.join n) ⟨.always, dc, rc, false, rd, sym⟩
        ⟨cf, tx, true :: ls, ds, evs⟩ =
      .ok (⟨cf, tx, ls, ds,
        evs ++ [.linkFileCall original (p.join n), .linkCreated original (p.join n)]⟩,
        .ok .cont))
    ∧ (linkFile original (p.join n) ⟨.ask, dc, rc, false, rd, sym⟩
        ⟨none :: cf, tx, ls, ds, evs⟩ =
      .ok (⟨cf, tx, ls, ds, evs ++ [.linkFileCall original (p.join n)]⟩, .ok .abort))
    ∧ (linkFile original (p.join n) ⟨.ask, dc, rc, false, rd, sym⟩
        ⟨some false :: cf, tx, ls, ds, evs⟩ =
      .ok (⟨cf, tx, ls, ds, evs ++ [.linkFileCall original (p.join n)]⟩, .ok .cont))
    ∧ (linkFile original (p.join n) ⟨.ask, dc, rc, false, rd, sym⟩
        ⟨some true :: cf, tx, true :: ls, ds, evs⟩ =
      .ok (⟨cf, tx, ls, ds,
        evs ++ [.linkFileCall original (p.join n), .linkCreated original (p.join n)]⟩,
        .ok .cont)) := by
  refine ⟨?_, ?_, ?_, ?_, ?_, ?_⟩
  · rcases c with ⟨s1, np, acl, cda, ra, rda, rla⟩
    cases np <;> cases acl <;> simp [CliRs.Cli.create_links]
  · rcases c with ⟨s1, np, acl, cda, ra, rda, rla⟩
    cases np <;> cases acl <;> simp [CliRs.Cli.create_links]
  · simp [linkFile, linkFileProceed, linkFileCreate, popConfirmS, popLinkOkS,
      SSpec.emit, Path.file_name_join, Path.set_file_name_join]
  · simp [linkFile, popConfirmS, SSpec.emit, Path.file_name_join]
  · simp [linkFile, popConfirmS, SSpec.emit, Path.file_name_join]
  · simp [linkFile, linkFileProceed, linkFileCreate, popConfirmS, popLinkOkS,
      SSpec.emit, Path.file_name_join, Path.set_file_name_join]

/-- C4: `cli.rs` resolves `ask_to_rename_links` to true unless
`--never-prompt` is set without the explicit override; a `linkFile` call
that proceeds past an affirmative or policy-`Always` creation decision
issues the rename prompt if and only if the resolved setting is true, with
the original file name as the pre-filled editable default; when it is false
the original name is used unmodified and the text stream is untouched, and
in either case the resulting name replaces the final component of the
proposed link path before the link is created. -/
theorem c4_rename_prompt_iff_ask_to_rename
    (original p : Path) (n nm : String) (dc rc : CliRs.Action)
    (rd sym acl rda rla : Bool) (cda ra : Option CliRs.Action)
    (cf : List (Option Bool)) (tx : List (Option String)) (ls ds : List Bool)
    (evs : List Ev) :
    ((CliRs.Cli.mk sym false acl cda ra rda rla).ask_to_rename_links = true)
    ∧ ((CliRs.Cli.mk sym true acl cda ra rda rla).ask_to_rename_links = rla)
    ∧ (linkFile original (p.join n) ⟨.always, dc, rc, true, rd, sym⟩
        ⟨cf, some nm :: tx, true :: ls, ds, evs⟩ =
      .ok (⟨cf, tx, ls, ds,
        evs ++ [.linkFileCall original (p.join n), .renamePrompt n,
          .linkCreated original (p.join nm)]⟩, .ok .cont))
    ∧ (linkFile original (p.join n) ⟨.ask, dc, rc, true, rd, sym⟩
        ⟨some true :: cf, some nm :: tx, true :: ls, ds, evs⟩ =
      .ok (⟨cf, tx, ls, ds,
        evs ++ [.linkFileCall original (p.join n), .renamePrompt n,
          .linkCreated original (p.join nm)]⟩, .ok .cont))
    ∧ (linkFile original (p.join n) ⟨.always, dc, rc, true, rd, sym⟩
        ⟨cf, none :: tx, ls, ds, evs⟩ =
      .ok (⟨cf, tx, ls, ds,
        evs ++ [.linkFileCall original (p.join n), .renamePrompt n]⟩, .ok .abort))
    ∧ (linkFile original (p.join n) ⟨.always, dc, rc, false, rd, sym⟩
        ⟨cf, tx, true :: ls, ds, evs⟩ =
      .ok (⟨cf, tx, ls, ds,
        evs ++ [.linkFileCall original (p.join n),
          .linkCreated original (p.join n)]⟩, .ok .cont)) := by
  refine ⟨by simp [CliRs.Cli.ask_to_rename_links], by simp [CliRs.Cli.ask_to_rename_links],
    ?_, ?_, ?_, ?_⟩ <;>
    simp [linkFile, linkFileProceed, linkFileCreate, popConfirmS, popTextS, popLinkOkS,
      SSpec.emit, Path.file_name_join, Path.set_file_name_join]

/-- C3: `cli.rs` resolves the recursion mode from the explicit flag, else
from `--never-prompt` (`Always`) or the default (`Ask`); and after the
policy-driven walk recreates a directory, the descent decision follows that
mode — `Never` proceeds to the next sibling without descending, `Always`
descends unconditionally with no confirmation consumed, and `Ask` consumes
one confirmation whose abort result propagates the abort outcome upward,
whose refusal skips descent, and whose assent descends into the source
subdirectory with the newly created directory as new target. -/
theorem c3_recursion_policy_drives_descent
    (n : String) (ch rest : Entries) (src tgt : Path)
    (lc : CliRs.Action) (rl sym acl rda rla : Bool) (cda : Option CliRs.Action)
    (a : CliRs.Action) (np : Bool)
    (cf : List (Option Bool)) (tx : List (Option String)) (ls ds : List Bool)
    (evs : List Ev) :
    ((CliRs.Cli.mk sym np acl cda (some a) rda rla).recurse = a)
    ∧ ((CliRs.Cli.mk sym false acl cda none rda rla).recurse = .ask)
    ∧ ((CliRs.Cli.mk sym true acl cda none rda rla).recurse = .always)
    ∧ (walk (.cons (.dir n true ch) rest) src tgt ⟨lc, .always, .never, rl, false, sym⟩
        ⟨cf, tx, ls, true :: ds, evs⟩ =
      walk rest src tgt ⟨lc, .always, .never, rl, false, sym⟩
        ⟨cf, tx, ls, ds, evs ++ [.createDirCall tgt n, .dirCreated (tgt.join n)]⟩)
    ∧ (walk (.cons (.dir n true ch) rest) src tgt ⟨lc, .always, .always, rl, false, sym⟩
        ⟨cf, tx, ls, true :: ds, evs⟩ =
      match walk ch (src.join n) (tgt.join n) ⟨lc, .always, .always, rl, false, sym⟩
          ⟨cf, tx, ls, ds, evs ++ [.createDirCall tgt n, .dirCreated (tgt.join n),
            .readDir (src.join n)]⟩ with
      | .panic => .panic
      | .ok (s1, .abort) => .ok (s1, .abort)
      | .ok (s1, .cont) => walk rest src tgt ⟨lc, .always, .always, rl, false, sym⟩ s1)
    ∧ (walk (.cons (.dir n true ch) rest) src tgt ⟨lc, .always, .ask, rl, false, sym⟩
        ⟨none :: cf, tx, ls, true :: ds, evs⟩ =
      .ok (⟨cf, tx, ls, ds, evs ++ [.createDirCall tgt n, .dirCreated (tgt.join n)]⟩,
        .abort))
    ∧ (walk (.cons (.dir n true ch) rest) src tgt ⟨lc, .always, .ask, rl, false, sym⟩
        ⟨some false :: cf, tx, ls, true :: ds, evs⟩ =
      walk rest src tgt ⟨lc, .always, .ask, rl, false, sym⟩
        ⟨cf, tx, ls, ds, evs ++ [.createDirCall tgt n, .dirCreated (tgt.join n)]⟩)
    ∧ (walk (.cons (.dir n true ch) rest) src tgt ⟨lc, .always, .ask, rl, false, sym⟩
        ⟨some true :: cf, tx, ls, true :: ds, evs⟩ =
      match walk ch (src.join n) (tgt.join n) ⟨lc, .always, .ask, rl, false, sym⟩
          ⟨cf, tx, ls, ds, evs ++ [.createDirCall tgt n, .dirCreated (tgt.join n),
            .readDir (src.join n)]⟩ with
      | .panic => .panic
      | .ok (s1, .abort) => .ok (s1, .abort)
      | .ok (s1, .cont) => walk rest src tgt ⟨lc, .always, .ask, rl, false, sym⟩ s1) := by
  refine ⟨by simp [CliRs.Cli.recurse], by simp [CliRs.Cli.recurse],
    by simp [CliRs.Cli.recurse], ?_, ?_, ?_, ?_, ?_⟩
  · simp [walk, walkEntry, createDir, createDirProceed, createDirMake,
      popDirOkS, SSpec.emit]
  · cases hw : walk ch (src.join n) (tgt.join n) ⟨lc, .always, .always, rl, false, sym⟩
        ⟨cf, tx, ls, ds, evs ++ [.createDirCall tgt n, .dirCreated (tgt.join n),
          .readDir (src.join n)]⟩ with
    | panic =>
      simp only [walk, walkEntry, createDir, createDirProceed, createDirMake,
        popDirOkS, SSpec.emit]
      simp only [List.append_assoc] at hw ⊢
      simp [hw]
    | ok a2 =>
      obtain ⟨s1, o⟩ := a2
      cases o <;>
      · simp only [walk, walkEntry, createDir, createDirProceed, createDirMake,
          popDirOkS, SSpec.emit]
        simp only [List.append_assoc] at hw ⊢
        simp [hw]
  · simp [walk, walkEntry, createDir, createDirProceed, createDirMake,
      popConfirmS, popDirOkS, SSpec.emit]
  · simp [walk, walkEntry, createDir, createDirProceed, createDirMake,
      popConfirmS, popDirOkS, SSpec.emit]
  · cases hw : walk ch (src.join n) (tgt.join n) ⟨lc, .always, .ask, rl, false, sym⟩
        ⟨cf, tx, ls, ds, evs ++ [.createDirCall tgt n, .dirCreated (tgt.join n),
          .readDir (src.join n)]⟩ with
    | panic =>
      simp only [walk, walkEntry, createDir, createDirProceed, createDirMake,
        popConfirmS, popDirOkS, SSpec.emit]
      simp only [List.append_assoc] at hw ⊢
      simp [hw]
    | ok a2 =>
      obtain ⟨s1, o⟩ := a2
      cases o <;>
      · simp only [walk, walkEntry, createDir, createDirProceed, createDirMake,
          popConfirmS, popDirOkS, SSpec.emit]
        simp only [List.append_assoc] at hw ⊢
        simp [hw]

end SpecModel

end LinkManager
